import Mathlib

/-!
Verification of the status-synchronization engine and command-translation
layer of the Vornado OSCR37 homebridge plugin.

The definitions below are a shallow embedding of the repository's source:
  - `src/alexaApi.ts` : the command model (`FanCommand` classes and their
    `toObject` serializations), the `FanStatus` record, and the status
    parser (`parseCapabilityStates`, `parseDeviceResponse`,
    `fanIntensityToPercentage` lives in the accessory).
  - the final platform-accessory variant (the file with the
    `fanStatus$` coalescing pipeline and the `poller`): `setIntensity`,
    `poll`, `fanIntensityToPercentage`, and the coalescing status cache
    built from `throttleTime(20)` / `switchMap` / `catchError` /
    `shareReplay(\x7bbufferSize: 1, refCount: true\x7d)`.
  - the legacy platform-accessory variant (`src/platformAccessory.ts`):
    its `setIntensity`, which routes percentage 0 to power-off.

Machine values are modelled at their JavaScript runtime shapes: a decoded
capability-state `value` is either a JSON string or an object with an
optional `value` string field; exceptions become `Except`; `console`
logging becomes an explicit list of structured log entries.
-/

namespace OSCR37

/-- Runtime shape of the `value` field of a decoded capability state:
either a JSON string (PowerController / ModeController / ToggleController
payloads) or an object with an optional inner `value` string
(EndpointHealth payloads). -/
inductive StateValue where
  | str (s : String)
  | obj (value : Option String)
deriving DecidableEq

/-- A decoded capability-state record (`DeviceCapabilityState` in
`alexaApi.ts`). The TypeScript field `namespace` is a Lean keyword and is
embedded as `ns`; the field `instance` is embedded as `inst`. A missing
`value` is `none`. -/
structure DeviceCapabilityState where
  ns : String
  inst : String
  value : Option StateValue
deriving DecidableEq

/-- The `FanStatus` record of `alexaApi.ts`. Every field is optional;
`none` models an absent (never assigned) field. `fanIntensity` and
`shutdownTimer` are runtime strings. -/
structure FanStatus where
  connected : Option Bool := none
  isOn : Option Bool := none
  fanIntensity : Option String := none
  isOscillating : Option Bool := none
  shutdownTimer : Option String := none
deriving DecidableEq

/-- Structured model of the `console` / platform-log messages emitted by
the parser and the accessory's status pipeline. -/
inductive LogEntry where
  | stateDump (st : DeviceCapabilityState)
  | warnIgnoringMode (st : DeviceCapabilityState)
  | warnUnsupportedTimer (st : DeviceCapabilityState)
  | warnIgnoringToggle (st : DeviceCapabilityState)
  | warnUnexpectedNamespace (st : DeviceCapabilityState)
  | errorDeviceStateRequest
  | errorReportedDeviceState
  | errorGettingStatus (err : String)
deriving DecidableEq

/-- The exceptions thrown on the status-read path: the
`Unsupported state for fan intensity` throw in `parseCapabilityStates`,
a `JSON.parse` failure in `parseDeviceResponse`, and the
`No device state received` error of `parseDeviceResponse`. -/
inductive ParseError where
  | unsupportedIntensity (st : DeviceCapabilityState)
  | jsonDecodeFailure (raw : String)
  | noDeviceState
deriving DecidableEq

/-- JavaScript optional chaining `state.value?.value`: yields the inner
string only when `value` is an object carrying one; a missing value or a
plain-string value yields `undefined` (`none`). -/
def valueDotValue : Option StateValue → Option String
  | some (.obj v) => v
  | _ => none

/-- JavaScript reading of a value as the assigned string
(`fanStatus.fanIntensity = state.value`): the payload when the value is a
string. Only applied on branches where the value is known to be one. -/
def valueAsString : StateValue → Option String
  | .str s => some s
  | .obj _ => none

/-- One iteration of the `for` loop of `parseCapabilityStates`
(`alexaApi.ts` lines 226-267): dispatch one capability state against the
accumulated `FanStatus`, producing the updated status and the console
messages of that iteration, or the thrown error. The JS guard
`state.instance === i && state.value != null`, with the final `else`
logging a warning, is rendered as the equivalent nested conditionals. -/
def applyCapabilityState (fanStatus : FanStatus) (state : DeviceCapabilityState) :
    Except ParseError (FanStatus × List LogEntry) :=
  if state.ns = "Alexa.EndpointHealth" then
    .ok ({ fanStatus with connected := some (valueDotValue state.value == some "OK") },
      [.stateDump state])
  else if state.ns = "Alexa.PowerController" then
    match state.value with
    | some v => .ok ({ fanStatus with isOn := some (v == .str "ON") }, [.stateDump state])
    | none => .ok (fanStatus, [.stateDump state])
  else if state.ns = "Alexa.ModeController" then
    if state.inst = "1" then
      match state.value with
      | some v =>
        if v ≠ .str "0" ∧ v ≠ .str "1" ∧ v ≠ .str "2" ∧ v ≠ .str "3" then
          .error (.unsupportedIntensity state)
        else
          .ok ({ fanStatus with fanIntensity := valueAsString v }, [.stateDump state])
      | none => .ok (fanStatus, [.stateDump state, .warnIgnoringMode state])
    else if state.inst = "3" then
      match state.value with
      | some v =>
        if v ≠ .str "0" ∧ v ≠ .str "1" ∧ v ≠ .str "2" ∧ v ≠ .str "3" ∧ v ≠ .str "4" then
          .ok (fanStatus, [.stateDump state, .warnUnsupportedTimer state])
        else
          .ok ({ fanStatus with shutdownTimer := valueAsString v }, [.stateDump state])
      | none => .ok (fanStatus, [.stateDump state, .warnIgnoringMode state])
    else
      .ok (fanStatus, [.stateDump state, .warnIgnoringMode state])
  else if state.ns = "Alexa.ToggleController" then
    if state.inst = "2" then
      match state.value with
      | some v =>
        .ok ({ fanStatus with isOscillating := some (v == .str "ON") }, [.stateDump state])
      | none => .ok (fanStatus, [.stateDump state, .warnIgnoringToggle state])
    else
      .ok (fanStatus, [.stateDump state, .warnIgnoringToggle state])
  else
    .ok (fanStatus, [.stateDump state, .warnUnexpectedNamespace state])

/-- The `for` loop of `parseCapabilityStates` from a given accumulator:
folds `applyCapabilityState` left-to-right, a thrown error aborting the
loop, and concatenates the per-iteration console messages. -/
def parseCapabilityStatesFrom (fanStatus : FanStatus) :
    List DeviceCapabilityState → Except ParseError (FanStatus × List LogEntry)
  | [] => .ok (fanStatus, [])
  | state :: rest =>
    match applyCapabilityState fanStatus state with
    | .error e => .error e
    | .ok (next, logs) =>
      match parseCapabilityStatesFrom next rest with
      | .error e => .error e
      | .ok (result, restLogs) => .ok (result, logs ++ restLogs)

/-- `parseCapabilityStates` (`alexaApi.ts` lines 224-269): starts from the
empty `FanStatus` literal and folds every capability state. -/
def parseCapabilityStates (states : List DeviceCapabilityState) :
    Except ParseError (FanStatus × List LogEntry) :=
  parseCapabilityStatesFrom {} states

/-- A raw (still JSON-encoded) capability-state string of a device-state
bundle: it either decodes to a `DeviceCapabilityState` or makes
`JSON.parse` throw. -/
inductive RawCapabilityState where
  | decodable (state : DeviceCapabilityState)
  | malformed (raw : String)
deriving DecidableEq

/-- `JSON.parse` applied to one raw capability-state string: returns the
decoded record or throws. -/
def jsonParseCapabilityState : RawCapabilityState → Except ParseError DeviceCapabilityState
  | .decodable state => .ok state
  | .malformed raw => .error (.jsonDecodeFailure raw)

/-- One entry of `DeviceQueryResult.deviceStates`. -/
structure DeviceState where
  capabilityStates : List RawCapabilityState
  error : Option String
deriving DecidableEq

/-- The raw result of `querySmarthomeDevices` (`DeviceQueryResult` in
`alexaApi.ts`). -/
structure DeviceQueryResult where
  deviceStates : List DeviceState
  errors : List String
deriving DecidableEq

/-- `deviceState.capabilityStates.map(state => JSON.parse(state))`: the
callback's throw propagates out of `map`, so decoding stops at the first
malformed entry and the whole list fails. -/
def decodeCapabilityStates :
    List RawCapabilityState → Except ParseError (List DeviceCapabilityState)
  | [] => .ok []
  | raw :: rest =>
    match jsonParseCapabilityState raw with
    | .error e => .error e
    | .ok state =>
      match decodeCapabilityStates rest with
      | .error e => .error e
      | .ok states => .ok (state :: states)

/-- `parseDeviceResponse` (`alexaApi.ts` lines 203-222): log top-level
errors, fail when no device state is present, take the first device entry,
log its per-device error, JSON-decode each capability state, then run
`parseCapabilityStates`. -/
def parseDeviceResponse (res : DeviceQueryResult) :
    Except ParseError (FanStatus × List LogEntry) :=
  let errorLogs : List LogEntry :=
    if res.errors.length ≠ 0 then [.errorDeviceStateRequest] else []
  match res.deviceStates with
  | [] => .error .noDeviceState
  | deviceState :: _ =>
    let deviceErrorLogs : List LogEntry :=
      if deviceState.error ≠ none then [.errorReportedDeviceState] else []
    match decodeCapabilityStates deviceState.capabilityStates with
    | .error e => .error e
    | .ok states =>
      match parseCapabilityStates states with
      | .error e => .error e
      | .ok (status, logs) => .ok (status, errorLogs ++ deviceErrorLogs ++ logs)

/-- The wire object produced by a command's `toObject()`:
`\x7baction, instance?, mode?\x7d`. The `instance` field is embedded as
`inst`. -/
structure WireAction where
  action : String
  inst : Option String := none
  mode : Option String := none
deriving DecidableEq

/-- The `FanCommand` union of `alexaApi.ts`: `FanPowerToggleCommand`,
`FanIntensityChangeCommand` (whose constructor stores the intensity
string), `FanOscillationToggleCommand`. -/
inductive FanCommand where
  | powerToggle (isOn : Bool)
  | intensityChange (intensity : String)
  | oscillationToggle (isOscillating : Bool)
deriving DecidableEq

/-- The `toObject()` serializations of the three command classes
(`alexaApi.ts` lines 23-70), with each class's constructor-computed
`action` inlined. -/
def FanCommand.toObject : FanCommand → WireAction
  | .powerToggle isOn => { action := if isOn then "turnOn" else "turnOff" }
  | .intensityChange intensity =>
    { action := "setModeValue", inst := some "1", mode := some intensity }
  | .oscillationToggle isOscillating =>
    { action := if isOscillating then "turnOnToggle" else "turnOffToggle", inst := some "2" }

/-- `setIntensity` of the final accessory variant (the `fanStatus$` file,
lines 156-170): percentage 0 is refused (no command is sent at all,
HomeKit sends a separate power-off request); otherwise the command sent is
`FanIntensityChangeCommand` with intensity string
`Math.floor((value - 1) / 25).toFixed(0)`. Returns the command handed to
`sendDeviceAction`, `none` when no command is sent. -/
def setIntensity (value : Nat) : Option FanCommand :=
  if value = 0 then
    none
  else
    some (.intensityChange (toString ((value - 1) / 25)))

/-- `setIntensity` of the legacy accessory variant
(`src/platformAccessory.ts` lines 140-149): percentage 0 is routed to
`setOn(false)`, which sends `FanPowerToggleCommand(false)`; otherwise the
level is chosen by the chained `percentage <= 25 / 50 / 75` comparisons. -/
def setIntensityLegacy (percentage : Nat) : FanCommand :=
  if percentage = 0 then
    .powerToggle false
  else
    .intensityChange
      (if percentage ≤ 25 then "0"
       else if percentage ≤ 50 then "1"
       else if percentage ≤ 75 then "2"
       else "3")

/-- `fanIntensityToPercentage` of the final accessory variant (lines
248-261): the quantization table, with the throwing `default` branch
modelled as `none`. -/
def fanIntensityToPercentage (intensity : String) : Option Nat :=
  if intensity = "0" then some 25
  else if intensity = "1" then some 50
  else if intensity = "2" then some 75
  else if intensity = "3" then some 100
  else none

/-- The change test of `poller.poll()` (final accessory variant, lines
58-65): everything changed when there is no previous snapshot, otherwise
any difference in `isOn`, `fanIntensity` or `isOscillating`. -/
def pollIsChanged (previous : Option FanStatus) (current : FanStatus) : Bool :=
  match previous with
  | none => true
  | some prev =>
    current.isOn != prev.isOn || current.fanIntensity != prev.fanIntensity ||
      current.isOscillating != prev.isOscillating

/-- `poller.poll()` (final accessory variant, lines 51-71) with the
awaited fetch result passed in as `current` and the poller's `previous`
field as explicit state. Returns the poll's return value (`none` models
the JS `null`, "no change") paired with the updated `previous` field. -/
def poll (previous : Option FanStatus) (current : FanStatus) :
    Option FanStatus × Option FanStatus :=
  (if pollIsChanged previous current then some current else none, some current)

/-- The degraded snapshot substituted by the `catchError` operator of the
`fanStatus$` pipeline (final accessory variant, lines 33-38):
`\x7bconnected: false\x7d` with every other field absent. -/
def degradedStatus : FanStatus := { connected := some false }

/-- The `catchError` stage of the `fanStatus$` pipeline: a successful
upstream query passes its snapshot through; a failed one is logged
(`Error getting status: ...`) and replaced by `degradedStatus`, so the
error never escapes the pipeline. -/
def handleFetchResult : Except String FanStatus → FanStatus × List LogEntry
  | .ok status => (status, [])
  | .error err => (degradedStatus, [.errorGettingStatus err])

/-- State of the coalescing status cache built by the `fanStatus$`
pipeline (final accessory variant, lines 21-41), restricted to one
throttle window (no 20 ms timer-expiry event is modelled, matching the
scenarios stated about a single window):
  - `waiters`: the readers currently subscribed through
    `firstValueFrom(fanStatus$)` and not yet resolved — the fan-out set of
    the `shareReplay(\x7bbufferSize: 1, refCount: true\x7d)` stage;
  - `fetchInFlight`: an upstream `getDeviceStatus` query started by
    `switchMap` and not yet completed;
  - `throttled`: `throttleTime(20)` (leading-edge) has already passed one
    `requestedFanUpdate$.next()` through in this window, so further
    `next()` calls are dropped. -/
structure CacheState where
  waiters : List Nat
  fetchInFlight : Bool
  throttled : Bool
deriving DecidableEq

/-- The cache before any read of the window: no waiters, no fetch in
flight, throttle idle. -/
def idleCache : CacheState := ⟨[], false, false⟩

/-- Observable effects of a run of the cache: how many upstream
`getDeviceStatus` queries were issued, which reader resolved with which
snapshot, and the log messages emitted. -/
structure CacheOutput where
  fetches : Nat := 0
  resolutions : List (Nat × FanStatus) := []
  logs : List LogEntry := []
deriving DecidableEq

/-- Concatenation of the effects of two consecutive runs. -/
def CacheOutput.append (a b : CacheOutput) : CacheOutput :=
  ⟨a.fetches + b.fetches, a.resolutions ++ b.resolutions, a.logs ++ b.logs⟩

/-- Events driving the cache:
  - `read id`: one status getter (`getActive`, `getIntensity` or
    `getSwingMode`, lines 134-149, 176-190, 206-222 of the final variant)
    runs its identical prologue — subscribe via
    `firstValueFrom(this.fanStatus$)`, then `requestedFanUpdate$.next()`;
  - `fetchResult r`: the in-flight upstream query completes with a
    snapshot or a transport error. -/
inductive CacheEvent where
  | read (id : Nat)
  | fetchResult (result : Except String FanStatus)

/-- One transition of the cache. A `read` always joins the waiter set
(the subscription); its `next()` either passes the leading edge of
`throttleTime(20)` — making `switchMap` issue exactly one upstream query
and opening the throttle window — or is dropped inside the window. A
`fetchResult` runs the `catchError` stage and is broadcast by
`shareReplay` to every waiter, all of which resolve with that one
value. -/
def cacheStep (s : CacheState) : CacheEvent → CacheState × CacheOutput
  | .read id =>
    if s.throttled then
      ({ s with waiters := s.waiters ++ [id] }, {})
    else
      ({ waiters := s.waiters ++ [id], fetchInFlight := true, throttled := true },
       { fetches := 1 })
  | .fetchResult result =>
    if s.fetchInFlight then
      let (status, logs) := handleFetchResult result
      ({ s with waiters := [], fetchInFlight := false },
       { resolutions := s.waiters.map fun id => (id, status), logs := logs })
    else
      (s, {})

/-- A run of the cache over a list of events, accumulating effects. -/
def cacheRun (s : CacheState) : List CacheEvent → CacheState × CacheOutput
  | [] => (s, {})
  | e :: es =>
    let (s1, o1) := cacheStep s e
    let (s2, o2) := cacheRun s1 es
    (s2, o1.append o2)

/-- C9: command serialization maps every command to the wire vocabulary
exactly: power toggles serialize to `turnOn` / `turnOff` with no instance
and no mode; an intensity change serializes to `setModeValue`, instance
`"1"`, mode the level's string form; oscillation toggles serialize to
`turnOnToggle` / `turnOffToggle` with instance `"2"` and no mode. -/
theorem fanCommand_toObject_spec :
    (FanCommand.powerToggle true).toObject = ⟨"turnOn", none, none⟩ ∧
    (FanCommand.powerToggle false).toObject = ⟨"turnOff", none, none⟩ ∧
    (∀ level : String, (FanCommand.intensityChange level).toObject =
      ⟨"setModeValue", some "1", some level⟩) ∧
    (FanCommand.oscillationToggle true).toObject = ⟨"turnOnToggle", some "2", none⟩ ∧
    (FanCommand.oscillationToggle false).toObject = ⟨"turnOffToggle", some "2", none⟩ :=
  ⟨rfl, rfl, fun _ => rfl, rfl, rfl⟩

/-- C2: `poll()` always replaces the stored previous snapshot with the
freshly fetched one, returns the fresh snapshot exactly when there was no
previous snapshot or one of `isOn`, `fanIntensity`, `isOscillating`
differs from it, and returns "no change" (`none`) exactly when a previous
snapshot exists and all three fields agree. -/
theorem poll_spec (previous : Option FanStatus) (current : FanStatus) :
    (poll previous current).2 = some current ∧
    ((poll previous current).1 = some current ↔
      previous = none ∨ ∃ prev, previous = some prev ∧
        (current.isOn ≠ prev.isOn ∨ current.fanIntensity ≠ prev.fanIntensity ∨
          current.isOscillating ≠ prev.isOscillating)) ∧
    ((poll previous current).1 = none ↔
      ∃ prev, previous = some prev ∧ current.isOn = prev.isOn ∧
        current.fanIntensity = prev.fanIntensity ∧
        current.isOscillating = prev.isOscillating) := by
  refine ⟨rfl, ?_, ?_⟩ <;>
  · cases previous with
    | none => simp [poll, pollIsChanged]
    | some prev =>
      cases hb : pollIsChanged (some prev) current with
      | false =>
        have hb' := hb
        simp only [pollIsChanged, Bool.or_eq_false_iff, bne_eq_false_iff_eq] at hb'
        simp [poll, hb, hb'.1.1, hb'.1.2, hb'.2]
      | true =>
        have hb' := hb
        simp only [pollIsChanged, Bool.or_eq_true, bne_iff_ne] at hb'
        simp [poll, hb]
        tauto

/-- C7 counterexample: in the final accessory variant, a set-intensity
request with percentage 0 sends no command at all — in particular it does
not execute `PowerToggle(false)` — contradicting the claim that the
adapter routes percentage 0 to the power-off path. -/
theorem setIntensity_zero_sends_nothing :
    setIntensity 0 = none ∧ setIntensity 0 ≠ some (FanCommand.powerToggle false) :=
  ⟨rfl, by decide⟩

/-- C7 amended: a set-intensity request with percentage 0 never emits an
`IntensityChange` command in either accessory variant; the legacy variant
routes it to power-off (`PowerToggle(false)`), while the final variant
ignores the request entirely (no command), relying on the framework's
separate power-off request. -/
theorem setIntensity_zero_amended :
    setIntensity 0 = none ∧
    (∀ s : String, setIntensity 0 ≠ some (FanCommand.intensityChange s)) ∧
    setIntensityLegacy 0 = FanCommand.powerToggle false ∧
    (∀ s : String, setIntensityLegacy 0 ≠ FanCommand.intensityChange s) := by
  refine ⟨rfl, ?_, rfl, ?_⟩
  · intro s h
    simp [setIntensity] at h
  · intro s h
    simp [setIntensityLegacy] at h

/-- C7 witness: the amended claim evaluated at percentage 0 and level
string "2". -/
theorem setIntensity_zero_amended_witness :
    setIntensity 0 = none ∧
    setIntensityLegacy 0 = FanCommand.powerToggle false ∧
    setIntensity 0 ≠ some (FanCommand.intensityChange "2") ∧
    setIntensityLegacy 0 ≠ FanCommand.intensityChange "2" :=
  ⟨setIntensity_zero_amended.1, setIntensity_zero_amended.2.2.1,
    setIntensity_zero_amended.2.1 "2", setIntensity_zero_amended.2.2.2 "2"⟩

/-- C8: for every percentage p in 1..100, the final accessory variant
sends `IntensityChange` with level `floor((p - 1) / 25)`; that level is
already within `\x7b0,1,2,3\x7d` (so clamping is the identity), and the
band boundaries are: 1-25 map to 0, 26-50 to 1, 51-75 to 2, 76-100 to 3. -/
theorem setIntensity_quantization (p : Nat) (h1 : 1 ≤ p) (h2 : p ≤ 100) :
    setIntensity p = some (FanCommand.intensityChange (toString ((p - 1) / 25))) ∧
    (p - 1) / 25 ≤ 3 ∧ min ((p - 1) / 25) 3 = (p - 1) / 25 ∧
    (p ≤ 25 → (p - 1) / 25 = 0) ∧
    (26 ≤ p → p ≤ 50 → (p - 1) / 25 = 1) ∧
    (51 ≤ p → p ≤ 75 → (p - 1) / 25 = 2) ∧
    (76 ≤ p → (p - 1) / 25 = 3) := by
  have hp : p ≠ 0 := by omega
  exact ⟨by simp [setIntensity, hp], by omega, Nat.min_eq_left (by omega),
    fun h => by omega, fun ha hb => by omega, fun ha hb => by omega, fun h => by omega⟩

/-- C8 witness: the quantization theorem evaluated at the boundary
percentage 26. -/
theorem setIntensity_quantization_witness :
    (1 ≤ 26 ∧ 26 ≤ 100) ∧
    (setIntensity 26 = some (FanCommand.intensityChange (toString ((26 - 1) / 25))) ∧
     (26 - 1) / 25 ≤ 3 ∧ min ((26 - 1) / 25) 3 = (26 - 1) / 25 ∧
     (26 ≤ 25 → (26 - 1) / 25 = 0) ∧
     (26 ≤ 26 → 26 ≤ 50 → (26 - 1) / 25 = 1) ∧
     (51 ≤ 26 → 26 ≤ 75 → (26 - 1) / 25 = 2) ∧
     (76 ≤ 26 → (26 - 1) / 25 = 3)) :=
  ⟨⟨by decide, by decide⟩, setIntensity_quantization 26 (by decide) (by decide)⟩

/-- The only exception the capability-state loop can throw is the
unsupported-intensity error, carrying the offending state. -/
lemma applyCapabilityState_error_shape (acc : FanStatus) (st : DeviceCapabilityState)
    (e : ParseError) (h : applyCapabilityState acc st = .error e) :
    e = .unsupportedIntensity st := by
  unfold applyCapabilityState at h
  repeat' split at h
  all_goals simp_all

/-- A ModeController entry with instance "1" and a present value outside
the four intensity strings makes the loop iteration throw. -/
lemma applyCapabilityState_bad_intensity (acc : FanStatus) (st : DeviceCapabilityState)
    (hns : st.ns = "Alexa.ModeController") (hinst : st.inst = "1")
    (v : StateValue) (hv : st.value = some v)
    (hbad : v ≠ .str "0" ∧ v ≠ .str "1" ∧ v ≠ .str "2" ∧ v ≠ .str "3") :
    applyCapabilityState acc st = .error (.unsupportedIntensity st) := by
  simp [applyCapabilityState, hns, hinst, hv, hbad]

/-- A ModeController entry with instance "3" and a present value outside
the five timer strings is logged and skipped: the accumulator is returned
unchanged and no error is raised. -/
lemma applyCapabilityState_bad_timer (acc : FanStatus) (st : DeviceCapabilityState)
    (hns : st.ns = "Alexa.ModeController") (hinst : st.inst = "3")
    (v : StateValue) (hv : st.value = some v)
    (hbad : v ≠ .str "0" ∧ v ≠ .str "1" ∧ v ≠ .str "2" ∧ v ≠ .str "3" ∧ v ≠ .str "4") :
    applyCapabilityState acc st = .ok (acc, [.stateDump st, .warnUnsupportedTimer st]) := by
  simp [applyCapabilityState, hns, hinst, hv, hbad]

/-- A bad-intensity entry anywhere in the list makes the whole loop fail
with the unsupported-intensity error, from any accumulator. -/
lemma parseFrom_error_of_bad_intensity (states : List DeviceCapabilityState) :
    ∀ (acc : FanStatus) (st : DeviceCapabilityState), st ∈ states →
      st.ns = "Alexa.ModeController" → st.inst = "1" →
      ∀ v, st.value = some v →
      (v ≠ .str "0" ∧ v ≠ .str "1" ∧ v ≠ .str "2" ∧ v ≠ .str "3") →
      ∃ w, parseCapabilityStatesFrom acc states = .error (.unsupportedIntensity w) := by
  induction states with
  | nil =>
    intro acc st hmem
    simp at hmem
  | cons head rest ih =>
    intro acc st hmem hns hinst v hv hbad
    rcases List.mem_cons.mp hmem with heq | hmem'
    · subst heq
      have happ := applyCapabilityState_bad_intensity acc st hns hinst v hv hbad
      exact ⟨st, by simp [parseCapabilityStatesFrom, happ]⟩
    · cases happ : applyCapabilityState acc head with
      | error e =>
        have he := applyCapabilityState_error_shape acc head e happ
        exact ⟨head, by simp [parseCapabilityStatesFrom, happ, he]⟩
      | ok pair =>
        obtain ⟨next, logs⟩ := pair
        obtain ⟨w, hw⟩ := ih next st hmem' hns hinst v hv hbad
        exact ⟨w, by simp [parseCapabilityStatesFrom, happ, hw]⟩

/-- C4: an intensity entry (ModeController, instance "1") with a present
value outside \x7b"0","1","2","3"\x7d makes the whole parse fail with the
unsupported-intensity error (a hard error, never silently dropped), while
a timer entry (ModeController, instance "3") with a present value outside
\x7b"0","1","2","3","4"\x7d is only logged and skipped: the accumulated
status is unchanged by that entry (in particular `shutdownTimer` is left
unset by it) and the iteration succeeds. -/
theorem intensity_hard_timer_soft :
    (∀ (states : List DeviceCapabilityState) (st : DeviceCapabilityState),
      st ∈ states → st.ns = "Alexa.ModeController" → st.inst = "1" →
      ∀ v, st.value = some v →
      v ≠ .str "0" → v ≠ .str "1" → v ≠ .str "2" → v ≠ .str "3" →
      ∃ w, parseCapabilityStates states = .error (.unsupportedIntensity w)) ∧
    (∀ (fanStatus : FanStatus) (st : DeviceCapabilityState),
      st.ns = "Alexa.ModeController" → st.inst = "3" →
      ∀ v, st.value = some v →
      v ≠ .str "0" → v ≠ .str "1" → v ≠ .str "2" → v ≠ .str "3" → v ≠ .str "4" →
      applyCapabilityState fanStatus st =
        .ok (fanStatus, [.stateDump st, .warnUnsupportedTimer st])) := by
  constructor
  · intro states st hmem hns hinst v hv h0 h1 h2 h3
    exact parseFrom_error_of_bad_intensity states {} st hmem hns hinst v hv ⟨h0, h1, h2, h3⟩
  · intro acc st hns hinst v hv h0 h1 h2 h3 h4
    exact applyCapabilityState_bad_timer acc st hns hinst v hv ⟨h0, h1, h2, h3, h4⟩

/-- C4 witness: the asymmetry evaluated at the concrete value "9" — a
bad intensity entry fails the parse of its singleton list, a bad timer
entry is skipped with a warning. -/
theorem intensity_hard_timer_soft_witness :
    (∃ w, parseCapabilityStates [⟨"Alexa.ModeController", "1", some (.str "9")⟩] =
      .error (.unsupportedIntensity w)) ∧
    applyCapabilityState {} ⟨"Alexa.ModeController", "3", some (.str "9")⟩ =
      .ok ({}, [.stateDump ⟨"Alexa.ModeController", "3", some (.str "9")⟩,
        .warnUnsupportedTimer ⟨"Alexa.ModeController", "3", some (.str "9")⟩]) :=
  ⟨intensity_hard_timer_soft.1 [⟨"Alexa.ModeController", "1", some (.str "9")⟩]
      ⟨"Alexa.ModeController", "1", some (.str "9")⟩ (by simp) rfl rfl
      (.str "9") rfl (by decide) (by decide) (by decide) (by decide),
    intensity_hard_timer_soft.2 {} ⟨"Alexa.ModeController", "3", some (.str "9")⟩ rfl rfl
      (.str "9") rfl (by decide) (by decide) (by decide) (by decide) (by decide)⟩

/-- A malformed raw entry anywhere in the list makes the `map` over
`JSON.parse` throw: the whole decode fails with a decode error. -/
lemma decode_error_of_malformed (raws : List RawCapabilityState) :
    ∀ raw, RawCapabilityState.malformed raw ∈ raws →
      ∃ t, decodeCapabilityStates raws = .error (.jsonDecodeFailure t) := by
  induction raws with
  | nil =>
    intro raw h
    simp at h
  | cons head rest ih =>
    intro raw hmem
    rcases List.mem_cons.mp hmem with heq | hmem'
    · exact ⟨raw, by simp [← heq, decodeCapabilityStates, jsonParseCapabilityState]⟩
    · cases head with
      | malformed r =>
        exact ⟨r, by simp [decodeCapabilityStates, jsonParseCapabilityState]⟩
      | decodable st =>
        obtain ⟨t, ht⟩ := ih raw hmem'
        exact ⟨t, by simp [decodeCapabilityStates, jsonParseCapabilityState, ht]⟩

/-- C5 counterexample: a device response holding one well-formed
PowerController entry and one malformed raw string fails as a whole with
the decode error — no `FanStatus` is produced from the remaining
well-formed entry, although that entry alone parses fine. -/
theorem decode_failure_counterexample :
    parseDeviceResponse ⟨[⟨[.decodable ⟨"Alexa.PowerController", "", some (.str "ON")⟩,
        .malformed "not json"], none⟩], []⟩ =
      .error (.jsonDecodeFailure "not json") ∧
    parseCapabilityStates [⟨"Alexa.PowerController", "", some (.str "ON")⟩] =
      .ok ({ isOn := some true },
        [.stateDump ⟨"Alexa.PowerController", "", some (.str "ON")⟩]) :=
  ⟨rfl, rfl⟩

/-- C5 amended: raw capability-state entries are not decoded
independently — the decode runs inside a `map` with no per-entry error
handling, so a decode failure of one raw string aborts the parsing of the
whole device response with a decode error, and no `FanStatus` is produced
from the remaining well-formed entries. -/
theorem decode_failure_aborts_parse (res : DeviceQueryResult) (ds : DeviceState)
    (rest : List DeviceState) (hds : res.deviceStates = ds :: rest)
    (raw : String) (hmem : RawCapabilityState.malformed raw ∈ ds.capabilityStates) :
    ∃ t, parseDeviceResponse res = .error (.jsonDecodeFailure t) := by
  obtain ⟨t, ht⟩ := decode_error_of_malformed ds.capabilityStates raw hmem
  exact ⟨t, by simp [parseDeviceResponse, hds, ht]⟩

/-- C5 witness: the amended claim evaluated on a one-entry response whose
single raw string is malformed. -/
theorem decode_failure_aborts_parse_witness :
    ∃ t, parseDeviceResponse ⟨[⟨[.malformed "oops"], none⟩], []⟩ =
      .error (.jsonDecodeFailure t) :=
  decode_failure_aborts_parse ⟨[⟨[.malformed "oops"], none⟩], []⟩
    ⟨[.malformed "oops"], none⟩ [] rfl "oops" (by simp)

/-- Generic origin lemma for the capability-state loop: when a projection
of the status can only change at an iteration that satisfies `P`, the
projection of the loop's result either equals the accumulator's or is
witnessed by some processed entry. -/
lemma parseFrom_origin {α : Type} (f : FanStatus → α)
    (P : DeviceCapabilityState → α → Prop)
    (step : ∀ acc st acc2 logs, applyCapabilityState acc st = .ok (acc2, logs) →
      f acc2 = f acc ∨ P st (f acc2))
    (states : List DeviceCapabilityState) :
    ∀ acc res logs, parseCapabilityStatesFrom acc states = .ok (res, logs) →
      f res = f acc ∨ ∃ st ∈ states, P st (f res) := by
  induction states with
  | nil =>
    intro acc res logs h
    simp [parseCapabilityStatesFrom] at h
    left
    rw [h.1]
  | cons head rest ih =>
    intro acc res logs h
    cases happ : applyCapabilityState acc head with
    | error e => simp [parseCapabilityStatesFrom, happ] at h
    | ok pair =>
      obtain ⟨next, logs1⟩ := pair
      cases hrest : parseCapabilityStatesFrom next rest with
      | error e => simp [parseCapabilityStatesFrom, happ, hrest] at h
      | ok pair2 =>
        obtain ⟨res2, logs2⟩ := pair2
        simp [parseCapabilityStatesFrom, happ, hrest] at h
        obtain ⟨hres, hlogs⟩ := h
        subst hres
        rcases ih next res2 logs2 hrest with hsame | ⟨st, hstmem, hP⟩
        · rcases step acc head next logs1 happ with hs | hP
          · left
            rw [hsame, hs]
          · right
            exact ⟨head, List.mem_cons_self _ _, by rwa [← hsame] at hP⟩
        · right
          exact ⟨st, List.mem_cons_of_mem _ hstmem, hP⟩

/-- Step lemma for `connected`: it changes only at an EndpointHealth
entry, to the `value?.value === "OK"` test (even when the value is
absent or malformed). -/
lemma applyCapabilityState_connected (acc : FanStatus) (st : DeviceCapabilityState)
    (acc2 : FanStatus) (logs : List LogEntry)
    (h : applyCapabilityState acc st = .ok (acc2, logs)) :
    acc2.connected = acc.connected ∨
      (st.ns = "Alexa.EndpointHealth" ∧
        acc2.connected = some (valueDotValue st.value == some "OK")) := by
  unfold applyCapabilityState at h
  repeat' split at h
  all_goals try simp_all
  all_goals (obtain ⟨h1, h2⟩ := h; subst h1; subst h2; simp_all)

/-- Step lemma for `isOn`: it changes only at a PowerController entry
with a present value, to the `value === "ON"` test. -/
lemma applyCapabilityState_isOn (acc : FanStatus) (st : DeviceCapabilityState)
    (acc2 : FanStatus) (logs : List LogEntry)
    (h : applyCapabilityState acc st = .ok (acc2, logs)) :
    acc2.isOn = acc.isOn ∨
      (st.ns = "Alexa.PowerController" ∧
        ∃ v, st.value = some v ∧ acc2.isOn = some (v == .str "ON")) := by
  unfold applyCapabilityState at h
  repeat' split at h
  all_goals try simp_all
  all_goals (obtain ⟨h1, h2⟩ := h; subst h1; subst h2; simp_all)

/-- Step lemma for `isOscillating`: it changes only at a ToggleController
entry with instance "2" and a present value, to the `value === "ON"`
test. -/
lemma applyCapabilityState_isOscillating (acc : FanStatus) (st : DeviceCapabilityState)
    (acc2 : FanStatus) (logs : List LogEntry)
    (h : applyCapabilityState acc st = .ok (acc2, logs)) :
    acc2.isOscillating = acc.isOscillating ∨
      (st.ns = "Alexa.ToggleController" ∧ st.inst = "2" ∧
        ∃ v, st.value = some v ∧ acc2.isOscillating = some (v == .str "ON")) := by
  unfold applyCapabilityState at h
  repeat' split at h
  all_goals try simp_all
  all_goals (obtain ⟨h1, h2⟩ := h; subst h1; subst h2; simp_all)

/-- Step lemma for `fanIntensity`: it changes only at a ModeController
entry with instance "1" whose present value is one of the four intensity
strings, and then to exactly that string. -/
lemma applyCapabilityState_fanIntensity (acc : FanStatus) (st : DeviceCapabilityState)
    (acc2 : FanStatus) (logs : List LogEntry)
    (h : applyCapabilityState acc st = .ok (acc2, logs)) :
    acc2.fanIntensity = acc.fanIntensity ∨
      (st.ns = "Alexa.ModeController" ∧ st.inst = "1" ∧
        ∃ s, st.value = some (.str s) ∧ (s = "0" ∨ s = "1" ∨ s = "2" ∨ s = "3") ∧
          acc2.fanIntensity = some s) := by
  unfold applyCapabilityState at h
  repeat' split at h
  all_goals try simp_all
  all_goals try (obtain ⟨h1, h2⟩ := h; subst h1; subst h2; simp_all; done)
  all_goals (
    obtain ⟨h1, h2⟩ := h
    subst h1
    subst h2
    rename_i v hv hcond
    right
    by_cases c0 : v = StateValue.str "0"
    · subst c0; simp_all [valueAsString]
    by_cases c1 : v = StateValue.str "1"
    · subst c1; simp_all [valueAsString]
    by_cases c2 : v = StateValue.str "2"
    · subst c2; simp_all [valueAsString]
    have c3 := hcond c0 c1 c2
    subst c3; simp_all [valueAsString])

/-- Step lemma for `shutdownTimer`: it changes only at a ModeController
entry with instance "3" whose present value is one of the five timer
strings, and then to exactly that string. -/
lemma applyCapabilityState_shutdownTimer (acc : FanStatus) (st : DeviceCapabilityState)
    (acc2 : FanStatus) (logs : List LogEntry)
    (h : applyCapabilityState acc st = .ok (acc2, logs)) :
    acc2.shutdownTimer = acc.shutdownTimer ∨
      (st.ns = "Alexa.ModeController" ∧ st.inst = "3" ∧
        ∃ s, st.value = some (.str s) ∧
          (s = "0" ∨ s = "1" ∨ s = "2" ∨ s = "3" ∨ s = "4") ∧
          acc2.shutdownTimer = some s) := by
  unfold applyCapabilityState at h
  repeat' split at h
  all_goals try simp_all
  all_goals try (obtain ⟨h1, h2⟩ := h; subst h1; subst h2; simp_all; done)
  all_goals (
    obtain ⟨h1, h2⟩ := h
    subst h1
    subst h2
    rename_i v hv hcond
    right
    by_cases c0 : v = StateValue.str "0"
    · subst c0; simp_all [valueAsString]
    by_cases c1 : v = StateValue.str "1"
    · subst c1; simp_all [valueAsString]
    by_cases c2 : v = StateValue.str "2"
    · subst c2; simp_all [valueAsString]
    by_cases c3 : v = StateValue.str "3"
    · subst c3; simp_all [valueAsString]
    have c4 := hcond c0 c1 c2 c3
    subst c4; simp_all [valueAsString])

/-- C6 counterexample: an EndpointHealth entry with a missing value does
set `connected` (to `false`), because the assignment
`fanStatus.connected = state.value?.value === "OK"` is unconditional —
contradicting the claim that an entry with a missing or malformed value
never sets `connected`. -/
theorem connected_forced_by_valueless_entry :
    parseCapabilityStates [⟨"Alexa.EndpointHealth", "", none⟩] =
      .ok ({ connected := some false },
        [.stateDump ⟨"Alexa.EndpointHealth", "", none⟩]) ∧
    ({ connected := some false } : FanStatus).connected ≠ none :=
  ⟨rfl, by decide⟩

/-- C6 amended: `isOn`, `isOscillating`, `fanIntensity` and
`shutdownTimer` are set only when some entry carried an explicit,
recognized value for them (absence of a field means no such entry), but
`connected` is set by every EndpointHealth entry to the
`value?.value === "OK"` test — even when the value is missing or
malformed, in which case it is forced to `false`. -/
theorem fields_set_only_by_entries (states : List DeviceCapabilityState)
    (res : FanStatus) (logs : List LogEntry)
    (h : parseCapabilityStates states = .ok (res, logs)) :
    (∀ b, res.isOn = some b → ∃ st ∈ states, st.ns = "Alexa.PowerController" ∧
      ∃ v, st.value = some v ∧ b = (v == StateValue.str "ON")) ∧
    (∀ b, res.isOscillating = some b → ∃ st ∈ states,
      st.ns = "Alexa.ToggleController" ∧ st.inst = "2" ∧
      ∃ v, st.value = some v ∧ b = (v == StateValue.str "ON")) ∧
    (∀ s, res.fanIntensity = some s → ∃ st ∈ states,
      st.ns = "Alexa.ModeController" ∧ st.inst = "1" ∧
      st.value = some (.str s) ∧ (s = "0" ∨ s = "1" ∨ s = "2" ∨ s = "3")) ∧
    (∀ s, res.shutdownTimer = some s → ∃ st ∈ states,
      st.ns = "Alexa.ModeController" ∧ st.inst = "3" ∧
      st.value = some (.str s) ∧ (s = "0" ∨ s = "1" ∨ s = "2" ∨ s = "3" ∨ s = "4")) ∧
    (∀ b, res.connected = some b → ∃ st ∈ states,
      st.ns = "Alexa.EndpointHealth" ∧ b = (valueDotValue st.value == some "OK")) := by
  refine ⟨?_, ?_, ?_, ?_, ?_⟩
  · intro b hb
    rcases parseFrom_origin (fun fs => fs.isOn)
        (fun st o => st.ns = "Alexa.PowerController" ∧
          ∃ v, st.value = some v ∧ o = some (v == StateValue.str "ON"))
        (fun acc st acc2 logs2 happ => applyCapabilityState_isOn acc st acc2 logs2 happ)
        states {} res logs h with hnone | ⟨st, hmem, hns, v, hv, ho⟩
    · rw [hb] at hnone
      simp at hnone
    · rw [hb] at ho
      exact ⟨st, hmem, hns, v, hv, by simpa using ho⟩
  · intro b hb
    rcases parseFrom_origin (fun fs => fs.isOscillating)
        (fun st o => st.ns = "Alexa.ToggleController" ∧ st.inst = "2" ∧
          ∃ v, st.value = some v ∧ o = some (v == StateValue.str "ON"))
        (fun acc st acc2 logs2 happ =>
          applyCapabilityState_isOscillating acc st acc2 logs2 happ)
        states {} res logs h with hnone | ⟨st, hmem, hns, hinst, v, hv, ho⟩
    · rw [hb] at hnone
      simp at hnone
    · rw [hb] at ho
      exact ⟨st, hmem, hns, hinst, v, hv, by simpa using ho⟩
  · intro s hs
    rcases parseFrom_origin (fun fs => fs.fanIntensity)
        (fun st o => st.ns = "Alexa.ModeController" ∧ st.inst = "1" ∧
          ∃ u, st.value = some (.str u) ∧ (u = "0" ∨ u = "1" ∨ u = "2" ∨ u = "3") ∧
            o = some u)
        (fun acc st acc2 logs2 happ =>
          applyCapabilityState_fanIntensity acc st acc2 logs2 happ)
        states {} res logs h with hnone | ⟨st, hmem, hns, hinst, u, hu, hval, ho⟩
    · rw [hs] at hnone
      simp at hnone
    · rw [hs] at ho
      have hus : u = s := by simpa using ho.symm
      subst hus
      exact ⟨st, hmem, hns, hinst, hu, hval⟩
  · intro s hs
    rcases parseFrom_origin (fun fs => fs.shutdownTimer)
        (fun st o => st.ns = "Alexa.ModeController" ∧ st.inst = "3" ∧
          ∃ u, st.value = some (.str u) ∧
            (u = "0" ∨ u = "1" ∨ u = "2" ∨ u = "3" ∨ u = "4") ∧ o = some u)
        (fun acc st acc2 logs2 happ =>
          applyCapabilityState_shutdownTimer acc st acc2 logs2 happ)
        states {} res logs h with hnone | ⟨st, hmem, hns, hinst, u, hu, hval, ho⟩
    · rw [hs] at hnone
      simp at hnone
    · rw [hs] at ho
      have hus : u = s := by simpa using ho.symm
      subst hus
      exact ⟨st, hmem, hns, hinst, hu, hval⟩
  · intro b hb
    rcases parseFrom_origin (fun fs => fs.connected)
        (fun st o => st.ns = "Alexa.EndpointHealth" ∧
          o = some (valueDotValue st.value == some "OK"))
        (fun acc st acc2 logs2 happ =>
          applyCapabilityState_connected acc st acc2 logs2 happ)
        states {} res logs h with hnone | ⟨st, hmem, hns, ho⟩
    · rw [hb] at hnone
      simp at hnone
    · rw [hb] at ho
      exact ⟨st, hmem, hns, by simpa using ho⟩

/-- C6 witness: the amended claim evaluated on the singleton list holding
one PowerController entry with value "ON". -/
theorem fields_set_only_by_entries_witness :
    (∀ b, ({ isOn := some true } : FanStatus).isOn = some b →
      ∃ st ∈ [(⟨"Alexa.PowerController", "", some (.str "ON")⟩ : DeviceCapabilityState)],
        st.ns = "Alexa.PowerController" ∧
        ∃ v, st.value = some v ∧ b = (v == StateValue.str "ON")) ∧
    (∀ b, ({ isOn := some true } : FanStatus).isOscillating = some b →
      ∃ st ∈ [(⟨"Alexa.PowerController", "", some (.str "ON")⟩ : DeviceCapabilityState)],
        st.ns = "Alexa.ToggleController" ∧ st.inst = "2" ∧
        ∃ v, st.value = some v ∧ b = (v == StateValue.str "ON")) ∧
    (∀ s, ({ isOn := some true } : FanStatus).fanIntensity = some s →
      ∃ st ∈ [(⟨"Alexa.PowerController", "", some (.str "ON")⟩ : DeviceCapabilityState)],
        st.ns = "Alexa.ModeController" ∧ st.inst = "1" ∧
        st.value = some (.str s) ∧ (s = "0" ∨ s = "1" ∨ s = "2" ∨ s = "3")) ∧
    (∀ s, ({ isOn := some true } : FanStatus).shutdownTimer = some s →
      ∃ st ∈ [(⟨"Alexa.PowerController", "", some (.str "ON")⟩ : DeviceCapabilityState)],
        st.ns = "Alexa.ModeController" ∧ st.inst = "3" ∧
        st.value = some (.str s) ∧ (s = "0" ∨ s = "1" ∨ s = "2" ∨ s = "3" ∨ s = "4")) ∧
    (∀ b, ({ isOn := some true } : FanStatus).connected = some b →
      ∃ st ∈ [(⟨"Alexa.PowerController", "", some (.str "ON")⟩ : DeviceCapabilityState)],
        st.ns = "Alexa.EndpointHealth" ∧
        b = (valueDotValue st.value == some "OK")) :=
  fields_set_only_by_entries [⟨"Alexa.PowerController", "", some (.str "ON")⟩]
    { isOn := some true }
    [.stateDump ⟨"Alexa.PowerController", "", some (.str "ON")⟩] rfl

/-- C10: every successfully parsed status has its `fanIntensity`, when
set, in \x7b"0","1","2","3"\x7d — never "4" although the field's type
admits it — so `fanIntensityToPercentage` never reaches its throwing
default branch on a parser-produced status, and the resulting percentage
is one of 25, 50, 75, 100. -/
theorem parser_intensity_in_range (states : List DeviceCapabilityState)
    (res : FanStatus) (logs : List LogEntry)
    (h : parseCapabilityStates states = .ok (res, logs)) :
    ∀ s, res.fanIntensity = some s →
      (s = "0" ∨ s = "1" ∨ s = "2" ∨ s = "3") ∧
      ∃ n, fanIntensityToPercentage s = some n ∧
        (n = 25 ∨ n = 50 ∨ n = 75 ∨ n = 100) := by
  intro s hs
  rcases parseFrom_origin (fun fs => fs.fanIntensity)
      (fun st o => ∃ u, (u = "0" ∨ u = "1" ∨ u = "2" ∨ u = "3") ∧ o = some u)
      (fun acc st acc2 logs2 happ => by
        rcases applyCapabilityState_fanIntensity acc st acc2 logs2 happ with
          hsame | ⟨hns, hinst, u, hu, hval, ho⟩
        · exact Or.inl hsame
        · exact Or.inr ⟨u, hval, ho⟩)
      states {} res logs h with hnone | ⟨st, hmem, u, hval, ho⟩
  · rw [hs] at hnone
    simp at hnone
  · rw [hs] at ho
    have hus : u = s := by simpa using ho.symm
    subst hus
    refine ⟨hval, ?_⟩
    rcases hval with h0 | h0 | h0 | h0 <;> subst h0 <;>
      exact ⟨_, rfl, by simp⟩

/-- C10 witness: the range theorem evaluated on the singleton list
holding one intensity entry with value "2". -/
theorem parser_intensity_in_range_witness :
    ("2" = "0" ∨ "2" = "1" ∨ "2" = "2" ∨ "2" = "3") ∧
    ∃ n, fanIntensityToPercentage "2" = some n ∧
      (n = 25 ∨ n = 50 ∨ n = 75 ∨ n = 100) :=
  parser_intensity_in_range [⟨"Alexa.ModeController", "1", some (.str "2")⟩]
    { fanIntensity := some "2" }
    [.stateDump ⟨"Alexa.ModeController", "1", some (.str "2")⟩] rfl "2" rfl

/-- Appending an empty effect set on the right changes nothing. -/
lemma CacheOutput.append_empty (o : CacheOutput) : o.append {} = o := by
  cases o
  simp [CacheOutput.append]

/-- Reads inside an open throttle window only join the waiter set: the
`next()` calls are dropped by `throttleTime(20)` and no upstream query is
issued. A trailing fetch completion then resolves every waiter — original
and newly joined alike — with the one value produced by the `catchError`
stage. -/
lemma cacheRun_reads_fetch (r : Except String FanStatus) (rest : List Nat) :
    ∀ s : CacheState, s.throttled = true → s.fetchInFlight = true →
      cacheRun s (rest.map CacheEvent.read ++ [CacheEvent.fetchResult r]) =
        (⟨[], false, true⟩,
          ⟨0, (s.waiters ++ rest).map fun id => (id, (handleFetchResult r).1),
            (handleFetchResult r).2⟩) := by
  induction rest with
  | nil =>
    intro s h1 h2
    obtain ⟨w, fi, th⟩ := s
    simp only at h1 h2
    subst h1
    subst h2
    cases r with
    | ok status =>
      simp [cacheRun, cacheStep, handleFetchResult, CacheOutput.append]
    | error err =>
      simp [cacheRun, cacheStep, handleFetchResult, CacheOutput.append]
  | cons id rest ih =>
    intro s h1 h2
    obtain ⟨w, fi, th⟩ := s
    simp only at h1 h2
    subst h1
    subst h2
    have hstep : cacheStep ⟨w, true, true⟩ (.read id) = (⟨w ++ [id], true, true⟩, {}) := by
      simp [cacheStep]
    have hih := ih ⟨w ++ [id], true, true⟩ rfl rfl
    simp only [List.map_cons, List.cons_append, cacheRun, hstep, List.append_eq, hih]
    simp [CacheOutput.append, List.append_assoc]

/-- A burst of reads starting from the idle cache, followed by the fetch
completion: the first read triggers exactly one upstream query, the rest
coalesce onto it, and all readers resolve with the single value produced
by the `catchError` stage. -/
lemma cacheRun_burst (ids : List Nat) (hne : ids ≠ [])
    (r : Except String FanStatus) :
    cacheRun idleCache (ids.map CacheEvent.read ++ [CacheEvent.fetchResult r]) =
      (⟨[], false, true⟩,
        ⟨1, ids.map fun id => (id, (handleFetchResult r).1),
          (handleFetchResult r).2⟩) := by
  cases ids with
  | nil => exact absurd rfl hne
  | cons id0 rest =>
    have hstep : cacheStep idleCache (.read id0) = (⟨[id0], true, true⟩, ⟨1, [], []⟩) := by
      simp [cacheStep, idleCache]
    have hfetch := cacheRun_reads_fetch r rest ⟨[id0], true, true⟩ rfl rfl
    simp only [List.map_cons, List.cons_append, cacheRun, hstep, List.append_eq, hfetch]
    simp [CacheOutput.append]

/-- C1: for every nonempty burst of concurrent status reads (the shared
prologue of `getActive`, `getIntensity`, `getSwingMode`) issued within one
throttle window while no upstream fetch is pending, exactly one upstream
device-status query is issued, and every read resolves with the identical
snapshot delivered by that one fetch. -/
theorem coalescing_guarantee (ids : List Nat) (hne : ids ≠ []) (status : FanStatus) :
    (cacheRun idleCache (ids.map CacheEvent.read ++
      [CacheEvent.fetchResult (.ok status)])).2.fetches = 1 ∧
    (cacheRun idleCache (ids.map CacheEvent.read ++
      [CacheEvent.fetchResult (.ok status)])).2.resolutions =
        ids.map (fun id => (id, status)) ∧
    ∀ p ∈ (cacheRun idleCache (ids.map CacheEvent.read ++
      [CacheEvent.fetchResult (.ok status)])).2.resolutions, p.2 = status := by
  rw [cacheRun_burst ids hne]
  refine ⟨rfl, rfl, ?_⟩
  intro p hp
  simp only [handleFetchResult] at hp
  obtain ⟨id, _, rfl⟩ := List.mem_map.mp hp
  rfl

/-- C1 witness: three concurrent reads and a successful fetch. -/
theorem coalescing_guarantee_witness :
    ([0, 1, 2] : List Nat) ≠ [] ∧
    ((cacheRun idleCache (([0, 1, 2] : List Nat).map CacheEvent.read ++
      [CacheEvent.fetchResult (.ok { isOn := some true, fanIntensity := some "2" })])).2.fetches
        = 1 ∧
    (cacheRun idleCache (([0, 1, 2] : List Nat).map CacheEvent.read ++
      [CacheEvent.fetchResult
        (.ok { isOn := some true, fanIntensity := some "2" })])).2.resolutions =
        ([0, 1, 2] : List Nat).map
          (fun id => (id, ({ isOn := some true, fanIntensity := some "2" } : FanStatus))) ∧
    ∀ p ∈ (cacheRun idleCache (([0, 1, 2] : List Nat).map CacheEvent.read ++
      [CacheEvent.fetchResult
        (.ok { isOn := some true, fanIntensity := some "2" })])).2.resolutions,
      p.2 = ({ isOn := some true, fanIntensity := some "2" } : FanStatus)) :=
  ⟨by decide, coalescing_guarantee [0, 1, 2] (by decide)
    { isOn := some true, fanIntensity := some "2" }⟩

/-- C3: when the upstream status query fails, every waiter of the pending
read resolves with the degraded snapshot (`connected := false`, every
other field absent), the error is logged, and no waiter is left
unresolved — the failure never escapes the pipeline. -/
theorem failure_degrades_waiters (ids : List Nat) (hne : ids ≠ []) (err : String) :
    (cacheRun idleCache (ids.map CacheEvent.read ++
      [CacheEvent.fetchResult (.error err)])).2.resolutions =
        ids.map (fun id => (id, degradedStatus)) ∧
    (∀ id ∈ ids, (id, degradedStatus) ∈
      (cacheRun idleCache (ids.map CacheEvent.read ++
        [CacheEvent.fetchResult (.error err)])).2.resolutions) ∧
    (cacheRun idleCache (ids.map CacheEvent.read ++
      [CacheEvent.fetchResult (.error err)])).2.logs = [.errorGettingStatus err] ∧
    degradedStatus.connected = some false ∧ degradedStatus.isOn = none ∧
    degradedStatus.fanIntensity = none ∧ degradedStatus.isOscillating = none ∧
    degradedStatus.shutdownTimer = none := by
  rw [cacheRun_burst ids hne]
  refine ⟨rfl, ?_, rfl, rfl, rfl, rfl, rfl, rfl⟩
  intro id hid
  exact List.mem_map_of_mem _ hid

/-- C3 witness: one waiter and a failing fetch. -/
theorem failure_degrades_waiters_witness :
    ([7] : List Nat) ≠ [] ∧
    ((cacheRun idleCache (([7] : List Nat).map CacheEvent.read ++
      [CacheEvent.fetchResult (.error "boom")])).2.resolutions =
        ([7] : List Nat).map (fun id => (id, degradedStatus)) ∧
    (∀ id ∈ ([7] : List Nat), (id, degradedStatus) ∈
      (cacheRun idleCache (([7] : List Nat).map CacheEvent.read ++
        [CacheEvent.fetchResult (.error "boom")])).2.resolutions) ∧
    (cacheRun idleCache (([7] : List Nat).map CacheEvent.read ++
      [CacheEvent.fetchResult (.error "boom")])).2.logs =
        [.errorGettingStatus "boom"] ∧
    degradedStatus.connected = some false ∧ degradedStatus.isOn = none ∧
    degradedStatus.fanIntensity = none ∧ degradedStatus.isOscillating = none ∧
    degradedStatus.shutdownTimer = none) :=
  ⟨by decide, failure_degrades_waiters [7] (by decide) "boom"⟩

end OSCR37
